import Mathlib

/-!
Verification of the proxy/bot automation template.

This file shallowly embeds the decision logic of `proxy_helper.py` and
`bot_core.py`:

* the multi-point health prober (`test_single_url`, `multi_point_test`),
* the tiered recovery state machine (`RecoveryManager.handle_error`,
  `RecoveryManager.reset_counters`, `trigger_level_c`),
* the subscription updater (`update_subscription`, `_write_subscribe_status`,
  `mask_url`),
* the remote command parser (`_parse_command`).

Network, file-system and browser effects are replaced by explicit
parameters (probe responses, fetch outcomes, lock availability, current
time) and by explicit records of observable effects (which recovery levels
were attempted, how many fetches were issued, which status document was
written).  Python integers and time values are modelled as `Int`.
-/

/- ================= Health classification (proxy_helper.py) ================= -/

/-- Health status enumeration, mirroring `proxy_helper.HealthStatus`. -/
inductive HealthStatus
  | unknown
  | excellent
  | healthy
  | degraded
  | unhealthy
  deriving DecidableEq

/-- `HEALTH_THRESHOLDS["EXCELLENT"]` in `proxy_helper.py`. -/
def HEALTH_THRESHOLD_EXCELLENT : Int := 300

/-- `HEALTH_THRESHOLDS["HEALTHY"]` in `proxy_helper.py`. -/
def HEALTH_THRESHOLD_HEALTHY : Int := 800

/-- `HEALTH_THRESHOLDS["DEGRADED"]` in `proxy_helper.py`. -/
def HEALTH_THRESHOLD_DEGRADED : Int := 1500

/-- Outcome of one latency probe request, abstracting the HTTP layer of
`test_single_url`: either the request raised (transport error, timeout,
JSON parse failure), or it returned a JSON document whose `delay` field
is present or absent. -/
inductive ProbeResponse
  | err
  | ok (delay : Option Int)
  deriving DecidableEq

/-- Embedding of `test_single_url` (proxy_helper.py lines 92-108): any
exception yields 0; otherwise `int(res_data.get("delay", 0))`. -/
def test_single_url : ProbeResponse → Int
  | ProbeResponse.err => 0
  | ProbeResponse.ok d => d.getD 0

/-- Ascending insertion, used to model Python's `list.sort()`. -/
def insert_asc (x : Int) : List Int → List Int
  | [] => [x]
  | y :: ys => if x ≤ y then x :: y :: ys else y :: insert_asc x ys

/-- Ascending sort, modelling `valid_latencies.sort()`. -/
def sort_asc : List Int → List Int
  | [] => []
  | x :: xs => insert_asc x (sort_asc xs)

/-- The threshold ladder of `multi_point_test` (proxy_helper.py lines
135-142): map a median latency to `(median, status)`. -/
def health_from_median (median : Int) : Int × HealthStatus :=
  if median < HEALTH_THRESHOLD_EXCELLENT then (median, HealthStatus.excellent)
  else if median < HEALTH_THRESHOLD_HEALTHY then (median, HealthStatus.healthy)
  else if median < HEALTH_THRESHOLD_DEGRADED then (median, HealthStatus.degraded)
  else (median, HealthStatus.unhealthy)

/-- Embedding of the classification part of `multi_point_test`
(proxy_helper.py lines 122-144), taking the raw per-URL results list:
`valid_latencies = [l for l in results if l > 0]`; if
`failed_count >= 2` return `(9999, UNHEALTHY)`; otherwise sort the valid
latencies and take `valid_latencies[len(valid_latencies) // 2]` as the
median; if no valid latency remains, return `(9999, UNHEALTHY)`. -/
def multi_point_classify (results : List Int) : Int × HealthStatus :=
  let valid := results.filter (fun l => decide (0 < l))
  let failed_count := results.length - valid.length
  if 2 ≤ failed_count then (9999, HealthStatus.unhealthy)
  else if valid.isEmpty then (9999, HealthStatus.unhealthy)
  else
    let sorted := sort_asc valid
    let median := sorted.getD (sorted.length / 2) 0
    health_from_median median

/-- Embedding of `multi_point_test` as a whole: each of the three probe
responses is first collapsed by `test_single_url`, then classified. -/
def multi_point_test (responses : List ProbeResponse) : Int × HealthStatus :=
  multi_point_classify (responses.map test_single_url)

/-- Claim C1, counterexample: `multi_point_test` on the sample with
latencies 250ms and 900ms and one failed probe picks
`valid[len(valid) // 2] = valid[1] = 900` (the upper-middle element of
the even-length list, not the lower-middle one), so the sample is
classified `degraded`, not `healthy` as the claim states. -/
theorem c1_lower_middle_counterexample :
    multi_point_classify [250, 900, 0] = (900, HealthStatus.degraded) ∧
    (multi_point_classify [250, 900, 0]).2 ≠ HealthStatus.healthy := by decide

/-- Claim C1, amended: for every sample in which exactly one of the three
probes failed, `multi_point_test` takes the element at index
`len(valid) // 2` of the two sorted successful latencies — the
upper-middle element, since the count is even — and maps it by the
thresholds `<300 excellent / <800 healthy / <1500 degraded / else
unhealthy`; in particular the sample `[250ms, 900ms, failed]` is
classified `degraded` with representative latency 900. -/
theorem c1_even_median_upper_middle (a b : Int) (ha : 0 < a) (hb : 0 < b)
    (hab : a ≤ b) :
    multi_point_classify [a, b, 0] = health_from_median b ∧
    multi_point_classify [a, 0, b] = health_from_median b ∧
    multi_point_classify [0, a, b] = health_from_median b ∧
    multi_point_classify [250, 900, 0] = (900, HealthStatus.degraded) := by
  refine ⟨?_, ?_, ?_, by decide⟩ <;>
    simp [multi_point_classify, ha, hb, sort_asc, insert_asc, hab]

/-- Witness for C1 amended, at the spec's own sample `[250, 900, failed]`. -/
theorem c1_even_median_upper_middle_witness :
    multi_point_classify [250, 900, 0] = health_from_median 900 ∧
    multi_point_classify [250, 0, 900] = health_from_median 900 ∧
    multi_point_classify [0, 250, 900] = health_from_median 900 ∧
    multi_point_classify [250, 900, 0] = (900, HealthStatus.degraded) :=
  c1_even_median_upper_middle 250 900 (by decide) (by decide) (by decide)

/-- Claim C6: whenever 2 or more of the 3 probe results are failures
(non-positive), `multi_point_test` returns the sentinel `(9999,
unhealthy)` regardless of any remaining successful value; in particular
`[failed, failed, 100ms]` yields `(9999, unhealthy)`. -/
theorem c6_majority_failed_unhealthy (l : List Int) (_h3 : l.length = 3)
    (h2 : 2 ≤ l.length - (l.filter (fun x => decide (0 < x))).length) :
    multi_point_classify l = (9999, HealthStatus.unhealthy) ∧
    multi_point_classify [0, 0, 100] = (9999, HealthStatus.unhealthy) := by
  refine ⟨?_, by decide⟩
  simp only [multi_point_classify]
  rw [if_pos h2]

/-- Witness for C6, at a sample with exactly two failed probes. -/
theorem c6_majority_failed_unhealthy_witness :
    multi_point_classify [100, 0, 0] = (9999, HealthStatus.unhealthy) ∧
    multi_point_classify [0, 0, 100] = (9999, HealthStatus.unhealthy) :=
  c6_majority_failed_unhealthy [100, 0, 0] (by decide) (by decide)

/-- Claim C10: a probe response whose `delay` field is 0 or absent is
collapsed by `test_single_url` to the same value 0 as a transport
error/timeout, and `multi_point_test` counts every non-positive latency
as a failed probe, so two such results force the `(9999, unhealthy)`
majority-failure verdict regardless of the third latency. -/
theorem c10_nonpositive_latency_is_failure :
    test_single_url ProbeResponse.err = 0 ∧
    test_single_url (ProbeResponse.ok none) = 0 ∧
    test_single_url (ProbeResponse.ok (some 0)) = 0 ∧
    ∀ v w x : Int, v ≤ 0 → w ≤ 0 →
      multi_point_classify [v, w, x] = (9999, HealthStatus.unhealthy) := by
  refine ⟨rfl, rfl, rfl, ?_⟩
  intro v w x hv hw
  have hv' : ¬(0 < v) := not_lt.mpr hv
  have hw' : ¬(0 < w) := not_lt.mpr hw
  by_cases hx : 0 < x
  · simp [multi_point_classify, hv', hw', hx]
  · simp [multi_point_classify, hv', hw', hx]

/-- Witness for C10: a genuine 0ms measurement plus a -3 sentinel count
as two failures even though the third probe succeeded at 250ms. -/
theorem c10_nonpositive_latency_is_failure_witness :
    test_single_url ProbeResponse.err = 0 ∧
    multi_point_classify [0, -3, 250] = (9999, HealthStatus.unhealthy) :=
  ⟨c10_nonpositive_latency_is_failure.1,
   c10_nonpositive_latency_is_failure.2.2.2 0 (-3) 250 (by decide) (by decide)⟩

/- ================= Recovery state machine (bot_core.py) ================= -/

/-- `RECOVERY_MAX_A_ERRORS` in `bot_core.py`. -/
def RECOVERY_MAX_A_ERRORS : Int := 5

/-- `RECOVERY_MAX_B_ERRORS` in `bot_core.py`. -/
def RECOVERY_MAX_B_ERRORS : Int := 3

/-- `RECOVERY_MAX_A_STILL_FAIL` in `bot_core.py`. -/
def RECOVERY_MAX_A_STILL_FAIL : Int := 3

/-- `RECOVERY_COOLDOWN_SECONDS` in `bot_core.py`. -/
def RECOVERY_COOLDOWN_SECONDS : Int := 30

/-- `RECOVERY_C_RESTART_DELAY_SECONDS` in `bot_core.py`. -/
def RECOVERY_C_RESTART_DELAY_SECONDS : Int := 30

/-- `RECOVERY_RESTART_EXIT_CODE` in `bot_core.py`. -/
def RECOVERY_RESTART_EXIT_CODE : Int := 2

/-- The recovery levels "A" and "B" stored in
`RecoveryManager.last_recovery_level` (`None` is modelled by `Option`). -/
inductive RecoveryLevel
  | A
  | B
  deriving DecidableEq

/-- The mutable fields of `RecoveryManager` (bot_core.py lines 366-375).
The threshold fields are constants and are kept as the `RECOVERY_*`
definitions above. -/
structure RecoveryState where
  error_count_a : Int
  error_count_b : Int
  last_recovery_level : Option RecoveryLevel
  a_still_fail_count : Int
  last_recovery_time : Int
  deriving DecidableEq

/-- The initial `RecoveryManager.__init__` state. -/
def init_state : RecoveryState :=
  { error_count_a := 0
    error_count_b := 0
    last_recovery_level := none
    a_still_fail_count := 0
    last_recovery_time := 0 }

/-- The observable effect of `trigger_level_c` (bot_core.py lines
401-409): it sends a notification, sleeps `sleep_seconds`, then calls
`sys.exit(exit_code)`; it never returns to the caller. -/
structure LevelCAction where
  notified : Bool
  sleep_seconds : Int
  exit_code : Int
  deriving DecidableEq

/-- Embedding of `RecoveryManager.trigger_level_c`: notify, sleep
`RECOVERY_C_RESTART_DELAY_SECONDS`, exit with
`RECOVERY_RESTART_EXIT_CODE`. -/
def trigger_level_c : LevelCAction :=
  { notified := true
    sleep_seconds := RECOVERY_C_RESTART_DELAY_SECONDS
    exit_code := RECOVERY_RESTART_EXIT_CODE }

/-- Result of a `handle_error` call: either a normal boolean return, or
the non-returning Level C process termination. -/
inductive HandleOutcome
  | result (b : Bool)
  | levelC (act : LevelCAction)
  deriving DecidableEq

/-- Which recovery levels were attempted during a `handle_error` call,
i.e. whether `recover_level_a` / `recover_level_b` were invoked. -/
structure HandleTrace where
  attempted_a : Bool
  attempted_b : Bool
  deriving DecidableEq

/-- State, outcome and attempt trace of one `handle_error` call. -/
structure HandleResult where
  state : RecoveryState
  outcome : HandleOutcome
  trace : HandleTrace
  deriving DecidableEq

/-- Embedding of `RecoveryManager.handle_error` (bot_core.py lines
411-467).  `current_time` stands for `time.time()`; `recA` and `recB`
are the environment's answers to the (at most one each)
`recover_level_a` / `recover_level_b` attempts — whether the page
reload / goto succeeded. -/
def handle_error (s : RecoveryState) (current_time : Int) (recA recB : Bool) :
    HandleResult :=
  if current_time - s.last_recovery_time < RECOVERY_COOLDOWN_SECONDS then
    { state := s
      outcome := HandleOutcome.result false
      trace := { attempted_a := false, attempted_b := false } }
  else
    let s1 :=
      if s.last_recovery_level = some RecoveryLevel.A then
        { s with a_still_fail_count := s.a_still_fail_count + 1 }
      else
        { s with a_still_fail_count := 0 }
    if RECOVERY_MAX_A_STILL_FAIL ≤ s1.a_still_fail_count then
      if recB then
        { state :=
            { s1 with
              error_count_a := 0
              error_count_b := 0
              a_still_fail_count := 0
              last_recovery_level := some RecoveryLevel.B
              last_recovery_time := current_time }
          outcome := HandleOutcome.result true
          trace := { attempted_a := false, attempted_b := true } }
      else
        let s2 := { s1 with error_count_b := s1.error_count_b + 1 }
        if RECOVERY_MAX_B_ERRORS ≤ s2.error_count_b then
          { state := s2
            outcome := HandleOutcome.levelC trigger_level_c
            trace := { attempted_a := false, attempted_b := true } }
        else
          { state := s2
            outcome := HandleOutcome.result false
            trace := { attempted_a := false, attempted_b := true } }
    else
      if recA then
        { state :=
            { s1 with
              error_count_a := 0
              last_recovery_level := some RecoveryLevel.A
              last_recovery_time := current_time }
          outcome := HandleOutcome.result true
          trace := { attempted_a := true, attempted_b := false } }
      else
        let s2 := { s1 with error_count_a := s1.error_count_a + 1 }
        if RECOVERY_MAX_A_ERRORS ≤ s2.error_count_a then
          if recB then
            { state :=
                { s2 with
                  error_count_a := 0
                  error_count_b := 0
                  a_still_fail_count := 0
                  last_recovery_level := some RecoveryLevel.B
                  last_recovery_time := current_time }
              outcome := HandleOutcome.result true
              trace := { attempted_a := true, attempted_b := true } }
          else
            let s3 := { s2 with error_count_b := s2.error_count_b + 1 }
            if RECOVERY_MAX_B_ERRORS ≤ s3.error_count_b then
              { state := s3
                outcome := HandleOutcome.levelC trigger_level_c
                trace := { attempted_a := true, attempted_b := true } }
            else
              { state := s3
                outcome := HandleOutcome.result false
                trace := { attempted_a := true, attempted_b := true } }
        else
          if RECOVERY_MAX_B_ERRORS ≤ s2.error_count_b then
            { state := s2
              outcome := HandleOutcome.levelC trigger_level_c
              trace := { attempted_a := true, attempted_b := false } }
          else
            { state := s2
              outcome := HandleOutcome.result false
              trace := { attempted_a := true, attempted_b := false } }

/-- Embedding of `RecoveryManager.reset_counters` (bot_core.py lines
469-474): zero all three counters and clear `last_recovery_level`
(`last_recovery_time` is untouched). -/
def reset_counters (s : RecoveryState) : RecoveryState :=
  { s with
    error_count_a := 0
    error_count_b := 0
    a_still_fail_count := 0
    last_recovery_level := none }

/-- One external operation on a `RecoveryManager`: a `handle_error` call
(with its time and the environment's A/B attempt outcomes) or a
`reset_counters` call. -/
inductive RecoveryOp
  | handle (t : Int) (recA recB : Bool)
  | reset
  deriving DecidableEq

/-- Execute one operation; `none` means the process terminated via
Level C, so no further state exists. -/
def run_op (s : RecoveryState) : RecoveryOp → Option RecoveryState
  | RecoveryOp.handle t recA recB =>
      match (handle_error s t recA recB).outcome with
      | HandleOutcome.result _ => some (handle_error s t recA recB).state
      | HandleOutcome.levelC _ => none
  | RecoveryOp.reset => some (reset_counters s)

/-- Execute a sequence of operations from a starting state. -/
def run_ops : RecoveryState → List RecoveryOp → Option RecoveryState
  | s, [] => some s
  | s, op :: ops =>
      match run_op s op with
      | none => none
      | some s' => run_ops s' ops

/-- Helper: a `handle_error` call that returns `true` stamped
`last_recovery_time` with the call's time (the stamp is written only in
the three success branches of the source). -/
theorem handle_success_sets_time (s : RecoveryState) (t : Int) (recA recB : Bool)
    (h : (handle_error s t recA recB).outcome = HandleOutcome.result true) :
    (handle_error s t recA recB).state.last_recovery_time = t := by
  simp only [handle_error] at h ⊢
  split_ifs at h ⊢ <;> simp_all

/-- Claim C2, counterexample: `handle_error` does not stamp
`last_recovery_time` on a failed attempt, so after a first call at
t=100 whose Level A attempt failed (returning false), a second call
only 10 seconds later is not gated by the cooldown: it attempts
recovery again and returns true. -/
theorem c2_cooldown_counterexample :
    (handle_error init_state 100 false false).outcome = HandleOutcome.result false ∧
    (handle_error init_state 100 false false).trace.attempted_a = true ∧
    (110 : Int) - 100 < RECOVERY_COOLDOWN_SECONDS ∧
    (handle_error (handle_error init_state 100 false false).state 110 true false).outcome
      = HandleOutcome.result true ∧
    (handle_error (handle_error init_state 100 false false).state 110 true false).trace.attempted_a
      = true := by decide

/-- Claim C2, amended: if the first `handle()` call's recovery attempt
*succeeded*, then any second call less than the 30-second cooldown
window after it performs no recovery action, leaves the state
unchanged, and returns false.  (`lastRecoveryTimestamp` records the
time of the last *successful* recovery, so a failed attempt does not
arm the cooldown.) -/
theorem c2_cooldown_after_success (s : RecoveryState) (t1 t2 : Int)
    (recA recB recA2 recB2 : Bool)
    (hsucc : (handle_error s t1 recA recB).outcome = HandleOutcome.result true)
    (hlt : t2 - t1 < RECOVERY_COOLDOWN_SECONDS) :
    handle_error (handle_error s t1 recA recB).state t2 recA2 recB2 =
      { state := (handle_error s t1 recA recB).state
        outcome := HandleOutcome.result false
        trace := { attempted_a := false, attempted_b := false } } := by
  have ht := handle_success_sets_time s t1 recA recB hsucc
  generalize hS : (handle_error s t1 recA recB).state = S at ht ⊢
  unfold handle_error
  rw [ht, if_pos hlt]

/-- Witness for C2 amended: first call at t=100 succeeds at Level A;
the second call at t=110 is a no-op returning false. -/
theorem c2_cooldown_after_success_witness :
    handle_error (handle_error init_state 100 true false).state 110 false false =
      { state := (handle_error init_state 100 true false).state
        outcome := HandleOutcome.result false
        trace := { attempted_a := false, attempted_b := false } } :=
  c2_cooldown_after_success init_state 100 110 true false false false
    (by decide) (by decide)

/-- Claim C4: on each `handle_error` call past the cooldown gate, the
machine first sets `a_still_fail_count` to `old + 1` if the previous
successful recovery level was A and to 0 otherwise; whenever that
updated count reaches the threshold `RECOVERY_MAX_A_STILL_FAIL = 3`,
the call skips Level A entirely and attempts Level B directly
(`attempted_a = false`, `attempted_b = true`).  When the threshold is
not reached, Level A is attempted and (when A succeeds) the updated
count is retained in the post-state. -/
theorem c4_a_still_fail_tracking (s : RecoveryState) (t : Int) (recA recB : Bool)
    (hcd : ¬(t - s.last_recovery_time < RECOVERY_COOLDOWN_SECONDS)) :
    (RECOVERY_MAX_A_STILL_FAIL ≤
        (if s.last_recovery_level = some RecoveryLevel.A then
          s.a_still_fail_count + 1 else 0) →
      (handle_error s t recA recB).trace =
        { attempted_a := false, attempted_b := true }) ∧
    ((if s.last_recovery_level = some RecoveryLevel.A then
        s.a_still_fail_count + 1 else 0) < RECOVERY_MAX_A_STILL_FAIL →
      recA = true →
      (handle_error s t recA recB).trace.attempted_a = true ∧
      (handle_error s t recA recB).state.a_still_fail_count =
        (if s.last_recovery_level = some RecoveryLevel.A then
          s.a_still_fail_count + 1 else 0)) := by
  simp only [handle_error]
  split_ifs <;> simp_all

/-- Witness for C4: with `last_recovery_level = A` and count 2, the
updated count reaches 3 and the call goes straight to Level B; with
count 0 and no prior A success, Level A is attempted and the count is
reset to 0. -/
theorem c4_a_still_fail_tracking_witness :
    (handle_error
        { error_count_a := 0
          error_count_b := 0
          last_recovery_level := some RecoveryLevel.A
          a_still_fail_count := 2
          last_recovery_time := 0 } 100 true true).trace =
      { attempted_a := false, attempted_b := true } ∧
    ((handle_error
        { error_count_a := 0
          error_count_b := 0
          last_recovery_level := some RecoveryLevel.B
          a_still_fail_count := 2
          last_recovery_time := 0 } 100 true true).trace.attempted_a = true ∧
      (handle_error
        { error_count_a := 0
          error_count_b := 0
          last_recovery_level := some RecoveryLevel.B
          a_still_fail_count := 2
          last_recovery_time := 0 } 100 true true).state.a_still_fail_count =
        (if ({ error_count_a := 0
               error_count_b := 0
               last_recovery_level := some RecoveryLevel.B
               a_still_fail_count := 2
               last_recovery_time := 0 } : RecoveryState).last_recovery_level
            = some RecoveryLevel.A then 2 + 1 else 0)) :=
  ⟨(c4_a_still_fail_tracking _ 100 true true (by decide)).1 (by decide),
   (c4_a_still_fail_tracking _ 100 true true (by decide)).2 (by decide) rfl⟩

/-- Claim C5: whenever a Level-B attempt fails and `error_count_b`
thereby reaches the threshold `RECOVERY_MAX_B_ERRORS = 3`,
`handle_error` triggers Level C — a notification is sent, a fixed
30-second delay is slept, and the process terminates with the
distinguished exit code 2 — and the call does not return a boolean to
the caller.  A Level-B attempt happens either via the
`a_still_fail_count` bypass or after a failed Level-A attempt pushes
`error_count_a` to its threshold. -/
theorem c5_b_failure_triggers_level_c (s : RecoveryState) (t : Int) (recA : Bool)
    (hcd : ¬(t - s.last_recovery_time < RECOVERY_COOLDOWN_SECONDS))
    (hb : RECOVERY_MAX_B_ERRORS ≤ s.error_count_b + 1)
    (hpath : RECOVERY_MAX_A_STILL_FAIL ≤
        (if s.last_recovery_level = some RecoveryLevel.A then
          s.a_still_fail_count + 1 else 0) ∨
      ((if s.last_recovery_level = some RecoveryLevel.A then
          s.a_still_fail_count + 1 else 0) < RECOVERY_MAX_A_STILL_FAIL ∧
        recA = false ∧ RECOVERY_MAX_A_ERRORS ≤ s.error_count_a + 1)) :
    (handle_error s t recA false).outcome =
      HandleOutcome.levelC
        { notified := true, sleep_seconds := 30, exit_code := 2 } ∧
    (handle_error s t recA false).trace.attempted_b = true := by
  rcases hpath with h | ⟨h1, h2, h3⟩ <;>
    · simp only [handle_error]
      split_ifs <;>
        simp_all [trigger_level_c, RECOVERY_C_RESTART_DELAY_SECONDS,
          RECOVERY_RESTART_EXIT_CODE]

/-- Witness for C5: with `error_count_b = 2`, a bypassed-to-B call whose
B attempt fails pushes the count to 3 and exits with code 2 after the
30-second notification delay. -/
theorem c5_b_failure_triggers_level_c_witness :
    (handle_error
        { error_count_a := 0
          error_count_b := 2
          last_recovery_level := some RecoveryLevel.A
          a_still_fail_count := 2
          last_recovery_time := 0 } 100 true false).outcome =
      HandleOutcome.levelC
        { notified := true, sleep_seconds := 30, exit_code := 2 } ∧
    (handle_error
        { error_count_a := 0
          error_count_b := 2
          last_recovery_level := some RecoveryLevel.A
          a_still_fail_count := 2
          last_recovery_time := 0 } 100 true false).trace.attempted_b = true :=
  c5_b_failure_triggers_level_c _ 100 true (by decide) (by decide)
    (Or.inl (by decide))

/-- Helper: the conjunction `errorCountA, errorCountB, aStillFailCount ≥ 0`. -/
def counters_nonneg (s : RecoveryState) : Prop :=
  0 ≤ s.error_count_a ∧ 0 ≤ s.error_count_b ∧ 0 ≤ s.a_still_fail_count

/-- Helper: one `handle_error` call preserves counter non-negativity. -/
theorem handle_preserves_nonneg (s : RecoveryState) (t : Int) (a b : Bool)
    (h : counters_nonneg s) : counters_nonneg ((handle_error s t a b).state) := by
  unfold counters_nonneg at h ⊢
  simp only [handle_error]
  split_ifs <;> simp_all <;> omega

/-- Helper: one `run_op` step preserves counter non-negativity. -/
theorem run_op_preserves_nonneg (s s' : RecoveryState) (op : RecoveryOp)
    (h : counters_nonneg s) (hr : run_op s op = some s') : counters_nonneg s' := by
  cases op with
  | handle t a b =>
      simp only [run_op] at hr
      cases hout : (handle_error s t a b).outcome with
      | result v =>
          rw [hout] at hr
          simp at hr
          rw [← hr]
          exact handle_preserves_nonneg s t a b h
      | levelC act =>
          rw [hout] at hr
          simp at hr
  | reset =>
      simp only [run_op] at hr
      simp at hr
      rw [← hr]
      unfold counters_nonneg reset_counters
      simp

/-- Helper: every state reachable by a sequence of operations from a
state with non-negative counters has non-negative counters. -/
theorem run_ops_preserves_nonneg (ops : List RecoveryOp) (s0 s : RecoveryState)
    (h0 : counters_nonneg s0) (h : run_ops s0 ops = some s) :
    counters_nonneg s := by
  induction ops generalizing s0 with
  | nil =>
      unfold run_ops at h
      simp at h
      rwa [← h]
  | cons op rest ih =>
      unfold run_ops at h
      cases hop : run_op s0 op with
      | none => rw [hop] at h; simp at h
      | some s1 =>
          rw [hop] at h
          exact ih s1 (run_op_preserves_nonneg s0 s1 op h0 hop) h

/-- Helper: a `handle_error` call that attempted Level B and returned
`true` zeroes all three counters together. -/
theorem handle_b_success_zeroes (s : RecoveryState) (t : Int) (a b : Bool)
    (h1 : (handle_error s t a b).trace.attempted_b = true)
    (h2 : (handle_error s t a b).outcome = HandleOutcome.result true) :
    (handle_error s t a b).state.error_count_a = 0 ∧
    (handle_error s t a b).state.error_count_b = 0 ∧
    (handle_error s t a b).state.a_still_fail_count = 0 := by
  simp only [handle_error] at h1 h2 ⊢
  split_ifs at h1 h2 ⊢ <;> simp_all

/-- Claim C7, counterexample to "reset to 0 together only via
resetCounters": after four failed Level-A cycles from the initial
state, `error_count_a = 4`; the next `handle_error` call (A fails a
fifth time, escalates to a successful Level B) zeroes all three
counters together — `handle_error` itself performs the joint reset. -/
theorem c7_joint_reset_counterexample :
    run_ops init_state
        [RecoveryOp.handle 100 false false, RecoveryOp.handle 200 false false,
         RecoveryOp.handle 300 false false, RecoveryOp.handle 400 false false] =
      some (⟨4, 0, none, 0, 0⟩ : RecoveryState) ∧
    (⟨4, 0, none, 0, 0⟩ : RecoveryState).error_count_a ≠ 0 ∧
    (handle_error (⟨4, 0, none, 0, 0⟩ : RecoveryState) 500 false true).outcome
      = HandleOutcome.result true ∧
    (handle_error (⟨4, 0, none, 0, 0⟩ : RecoveryState) 500 false true).state.error_count_a = 0 ∧
    (handle_error (⟨4, 0, none, 0, 0⟩ : RecoveryState) 500 false true).state.error_count_b = 0 ∧
    (handle_error (⟨4, 0, none, 0, 0⟩ : RecoveryState) 500 false true).state.a_still_fail_count = 0 := by
  decide

/-- Claim C7, amended: in every state reachable by any sequence of
`handle_error` and `reset_counters` calls, the three counters are
always ≥ 0; `reset_counters` zeroes all three counters and
`last_recovery_level` together; and `handle_error` itself also zeroes
all three counters together whenever a Level-B attempt succeeds. -/
theorem c7_counters_invariant (ops : List RecoveryOp) (s : RecoveryState)
    (h : run_ops init_state ops = some s) :
    (0 ≤ s.error_count_a ∧ 0 ≤ s.error_count_b ∧ 0 ≤ s.a_still_fail_count) ∧
    reset_counters s =
      { s with
        error_count_a := 0
        error_count_b := 0
        a_still_fail_count := 0
        last_recovery_level := none } ∧
    ∀ t a b, (handle_error s t a b).trace.attempted_b = true →
      (handle_error s t a b).outcome = HandleOutcome.result true →
      (handle_error s t a b).state.error_count_a = 0 ∧
      (handle_error s t a b).state.error_count_b = 0 ∧
      (handle_error s t a b).state.a_still_fail_count = 0 := by
  refine ⟨?_, rfl, ?_⟩
  · have h0 : counters_nonneg init_state := ⟨le_refl 0, le_refl 0, le_refl 0⟩
    have := run_ops_preserves_nonneg ops init_state s h0 h
    unfold counters_nonneg at this
    exact this
  · intro t a b h1 h2
    exact handle_b_success_zeroes s t a b h1 h2

/-- Witness for C7 amended, at the state reached by one failed Level-A
handling cycle. -/
theorem c7_counters_invariant_witness :
    (0 ≤ (⟨1, 0, none, 0, 0⟩ : RecoveryState).error_count_a ∧
      0 ≤ (⟨1, 0, none, 0, 0⟩ : RecoveryState).error_count_b ∧
      0 ≤ (⟨1, 0, none, 0, 0⟩ : RecoveryState).a_still_fail_count) ∧
    reset_counters (⟨1, 0, none, 0, 0⟩ : RecoveryState) =
      { (⟨1, 0, none, 0, 0⟩ : RecoveryState) with
        error_count_a := 0
        error_count_b := 0
        a_still_fail_count := 0
        last_recovery_level := none } ∧
    (∀ t a b,
      (handle_error (⟨1, 0, none, 0, 0⟩ : RecoveryState) t a b).trace.attempted_b = true →
      (handle_error (⟨1, 0, none, 0, 0⟩ : RecoveryState) t a b).outcome = HandleOutcome.result true →
      (handle_error (⟨1, 0, none, 0, 0⟩ : RecoveryState) t a b).state.error_count_a = 0 ∧
      (handle_error (⟨1, 0, none, 0, 0⟩ : RecoveryState) t a b).state.error_count_b = 0 ∧
      (handle_error (⟨1, 0, none, 0, 0⟩ : RecoveryState) t a b).state.a_still_fail_count = 0) :=
  c7_counters_invariant [RecoveryOp.handle 100 false false]
    (⟨1, 0, none, 0, 0⟩ : RecoveryState) (by decide)

/- ================= Remote command parsing (bot_core.py) ================= -/

/-- `REMOTE_COMMAND_EXPIRY_SECONDS` in `bot_core.py`. -/
def REMOTE_COMMAND_EXPIRY_SECONDS : Int := 60

/-- The shape of a command file's content once `json.loads` has been
attempted, abstracting the textual JSON layer of `_parse_command`:
a JSON object (with its optional `cmd` and `ts` members), some other
JSON value, or content that is not valid JSON (the plain-text format). -/
inductive RawCommand
  | jsonDict (cmd : Option String) (ts : Option Int)
  | jsonOther
  | plain (text : String)
  deriving DecidableEq

/-- Embedding of `_parse_command` (bot_core.py lines 210-230).  `now`
stands for `time.time()`.  A JSON non-dict yields `(None, 0)`; a dict
yields `cmd = data.get("cmd", "")`, `ts = data.get("ts", 0)` and is
dropped when `ts` is truthy (non-zero) and older than the expiry
window; non-JSON content is returned stripped, with timestamp 0. -/
def parse_command (now : Int) : RawCommand → Option String × Int
  | RawCommand.jsonDict cmd ts =>
      let c := cmd.getD ""
      let t := ts.getD 0
      if t ≠ 0 ∧ REMOTE_COMMAND_EXPIRY_SECONDS < now - t then (none, t)
      else (some c, t)
  | RawCommand.jsonOther => (none, 0)
  | RawCommand.plain text => (some text.trim, 0)

/-- Claim C9, counterexample: a structured command whose `ts` is the
(falsy) timestamp 0 has age `now - 0 = 1000`, far beyond the 60-second
expiry window, yet `_parse_command` still yields the command, because
the expiry test `if ts and ...` skips any zero timestamp. -/
theorem c9_zero_ts_counterexample :
    REMOTE_COMMAND_EXPIRY_SECONDS < (1000 : Int) - 0 ∧
    parse_command 1000 (RawCommand.jsonDict (some "ping") (some 0)) =
      (some "ping", 0) := by decide

/-- Claim C9, amended: a structured command `{"cmd": c, "ts": t}` with
*non-zero* `t` whose age exceeds the 60-second expiry window yields no
command (a zero or absent timestamp is treated as missing and never
expires); the same content with age 10 seconds yields `c`; a bare
plain-text command is parsed with no timestamp (0) and is never
discarded as expired. -/
theorem c9_command_expiry (now t : Int) (c s : String) :
    (t ≠ 0 → REMOTE_COMMAND_EXPIRY_SECONDS < now - t →
      parse_command now (RawCommand.jsonDict (some c) (some t)) = (none, t)) ∧
    (now - t = 10 →
      parse_command now (RawCommand.jsonDict (some c) (some t)) = (some c, t)) ∧
    parse_command now (RawCommand.plain s) = (some s.trim, 0) := by
  refine ⟨?_, ?_, rfl⟩
  · intro h1 h2
    simp only [parse_command, Option.getD]
    rw [if_pos ⟨h1, h2⟩]
  · intro h10
    simp only [parse_command, Option.getD]
    rw [if_neg]
    rintro ⟨-, hgt⟩
    rw [h10] at hgt
    exact absurd hgt (by decide)

/-- Witness for C9 amended: at `now = 200`, a command stamped 120
seconds ago is discarded; one stamped 10 seconds ago is accepted. -/
theorem c9_command_expiry_witness :
    parse_command 200 (RawCommand.jsonDict (some "ping") (some 80)) = (none, 80) ∧
    parse_command 200 (RawCommand.jsonDict (some "ping") (some 190)) =
      (some "ping", 190) ∧
    parse_command 200 (RawCommand.plain "  status  ") = (some "  status  ".trim, 0) :=
  ⟨(c9_command_expiry 200 80 "ping" "  status  ").1 (by decide) (by decide),
   (c9_command_expiry 200 190 "ping" "  status  ").2.1 (by decide),
   (c9_command_expiry 200 190 "ping" "  status  ").2.2⟩

/- ================= Subscription updater (proxy_helper.py) ================= -/

/-- `MIN_SUBSCRIBE_INTERVAL` in `proxy_helper.py`. -/
def MIN_SUBSCRIBE_INTERVAL : Int := 30

/-- A subscription URL as decomposed by `urlparse` in `mask_url`:
scheme, network location, path and the parsed query-parameter pairs. -/
structure Url where
  scheme : String
  netloc : String
  path : String
  query : List (String × String)
  deriving DecidableEq

/-- Keys in first-occurrence order, modelling the key set of the dict
produced by `parse_qs` (later duplicates collapse into the first). -/
def dedup_first : List String → List String
  | [] => []
  | k :: rest => k :: dedup_first (rest.filter (fun x => decide (x ≠ k)))
termination_by l => l.length
decreasing_by
  simp only [List.length_cons]
  exact Nat.lt_succ_of_le (List.length_filter_le _ _)

/-- Embedding of `mask_url` (bot_core.py lines 150-171) on a parsed
URL: rebuild `scheme://netloc/path`, and when a query is present,
re-encode it with every parameter's value replaced by the redaction
marker. -/
def mask_url (u : Url) : String :=
  let base := u.scheme ++ "://" ++ u.netloc ++ u.path
  if u.query.isEmpty then base
  else
    base ++ "?" ++
      String.intercalate "&"
        ((dedup_first (u.query.map Prod.fst)).map (fun k => k ++ "=***"))

/-- Helper: the masked preview depends only on the parameter *keys* of
the query — every parameter value is replaced by the marker, so two
URLs differing only in their query values mask identically. -/
theorem mask_url_ignores_query_values (s n p : String)
    (q q' : List (String × String)) (h : q.map Prod.fst = q'.map Prod.fst) :
    mask_url ⟨s, n, p, q⟩ = mask_url ⟨s, n, p, q'⟩ := by
  have hemp : q.isEmpty = q'.isEmpty := by
    cases q <;> cases q' <;> simp_all
  simp only [mask_url]
  rw [hemp, h]

/-- Outcome of the subscription fetch, abstracting
`urllib.request.urlopen(...)` in `update_subscription`: either the
request raised, or it returned content, characterised by whether the
`proxies:` and `port:` marker tokens occur in it. -/
inductive FetchOutcome
  | fetchErr (msg : String)
  | fetchOk (hasProxiesMarker hasPortMarker : Bool)
  deriving DecidableEq

/-- The status document written by `_write_subscribe_status`
(proxy_helper.py lines 262-273) via `atomic_write`; `last_update` is
the wall-clock write time. -/
structure SubscribeStatus where
  last_update : Int
  success : Bool
  url_preview : String
  error : Option String
  deriving DecidableEq

/-- Observable result of one `update_subscription` call: its boolean
return, the module-level `_last_subscribe_update` after the call, how
many network fetches were issued, and the status document written (if
any). -/
structure UpdateResult where
  ret : Bool
  new_last : Int
  fetches : Nat
  written : Option SubscribeStatus
  deriving DecidableEq

/-- Embedding of `update_subscription` (proxy_helper.py lines 275-327).
`last` is the module-level `_last_subscribe_update` before the call,
`now` is `time.time()`, `lock_free` is whether the non-blocking lock
acquisition succeeds, `sub_url` is `get_sub_url()`'s answer (`none` for
an empty URL), and `fetch` the network outcome.  The debounce and lock
gates return true with no fetch and no status write; a missing URL
returns false; otherwise `_last_subscribe_update` is stamped with `now`
and the fetch proceeds, writing a status document in every branch. -/
def update_subscription (last now : Int) (lock_free : Bool)
    (sub_url : Option Url) (fetch : FetchOutcome) : UpdateResult :=
  if now - last < MIN_SUBSCRIBE_INTERVAL then
    { ret := true, new_last := last, fetches := 0, written := none }
  else if lock_free = false then
    { ret := true, new_last := last, fetches := 0, written := none }
  else
    match sub_url with
    | none => { ret := false, new_last := last, fetches := 0, written := none }
    | some u =>
        match fetch with
        | FetchOutcome.fetchErr msg =>
            { ret := false
              new_last := now
              fetches := 1
              written := some
                { last_update := now
                  success := false
                  url_preview := mask_url u
                  error := some msg } }
        | FetchOutcome.fetchOk hp hpt =>
            if hp = false ∧ hpt = false then
              { ret := false
                new_last := now
                fetches := 1
                written := some
                  { last_update := now
                    success := false
                    url_preview := mask_url u
                    error := some "Invalid content" } }
            else
              { ret := true
                new_last := now
                fetches := 1
                written := some
                  { last_update := now
                    success := true
                    url_preview := mask_url u
                    error := none } }

/-- A sample subscription URL with a credential-bearing query value. -/
def sample_url : Url :=
  { scheme := "https"
    netloc := "api.example.com"
    path := "/sub"
    query := [("token", "SECRET")] }

/-- Claim C3, counterexample: a call that is *not* suppressed by the
debounce or the lock but finds no subscription URL configured returns
false without writing any status record — the missing-URL input fault
leaves no persisted status. -/
theorem c3_missing_url_counterexample :
    ¬((100 : Int) - 0 < MIN_SUBSCRIBE_INTERVAL) ∧
    update_subscription 0 100 true none (FetchOutcome.fetchErr "boom") =
      { ret := false, new_last := 0, fetches := 0, written := none } := by decide

/-- Claim C3, amended: every `update()` call that is not suppressed by
the debounce or the lock *and has a configured subscription URL* writes
the status record after the attempt, successful or not; a record
written after a failed attempt has `success = false` and a non-null
`error`, and its preview masks every query-parameter value (it depends
only on the parameter keys).  When the subscription URL is missing, the
call returns false and writes no status record. -/
theorem c3_status_after_attempt (last now : Int) (u : Url) (fetch : FetchOutcome)
    (hdeb : ¬(now - last < MIN_SUBSCRIBE_INTERVAL)) :
    (∃ st, (update_subscription last now true (some u) fetch).written = some st ∧
      st.url_preview = mask_url u ∧
      ((update_subscription last now true (some u) fetch).ret = false →
        st.success = false ∧ st.error ≠ none)) ∧
    (update_subscription last now true none fetch).written = none ∧
    (update_subscription last now true none fetch).ret = false ∧
    ∀ (s n p : String) (q q' : List (String × String)),
      q.map Prod.fst = q'.map Prod.fst →
      mask_url ⟨s, n, p, q⟩ = mask_url ⟨s, n, p, q'⟩ := by
  refine ⟨?_, ?_, ?_, fun s n p q q' h => mask_url_ignores_query_values s n p q q' h⟩
  · cases fetch with
    | fetchErr m =>
        have hres : update_subscription last now true (some u) (FetchOutcome.fetchErr m) =
            { ret := false, new_last := now, fetches := 1,
              written := some { last_update := now, success := false,
                                url_preview := mask_url u, error := some m } } := by
          simp [update_subscription, if_neg hdeb]
        rw [hres]
        exact ⟨_, rfl, rfl, fun _ => ⟨rfl, by simp⟩⟩
    | fetchOk hp hpt =>
        by_cases hm : hp = false ∧ hpt = false
        · have hres : update_subscription last now true (some u) (FetchOutcome.fetchOk hp hpt) =
              { ret := false, new_last := now, fetches := 1,
                written := some { last_update := now, success := false,
                                  url_preview := mask_url u,
                                  error := some "Invalid content" } } := by
            simp [update_subscription, if_neg hdeb, hm.1, hm.2]
          rw [hres]
          exact ⟨_, rfl, rfl, fun _ => ⟨rfl, by simp⟩⟩
        · have hres : update_subscription last now true (some u) (FetchOutcome.fetchOk hp hpt) =
              { ret := true, new_last := now, fetches := 1,
                written := some { last_update := now, success := true,
                                  url_preview := mask_url u, error := none } } := by
            simp [update_subscription, if_neg hdeb, hm]
          rw [hres]
          exact ⟨_, rfl, rfl, fun hfalse => by simp at hfalse⟩
  · simp [update_subscription, if_neg hdeb]
  · simp [update_subscription, if_neg hdeb]

/-- Witness for C3 amended: a non-suppressed failed fetch at t=100
writes a failed status for the sample URL, and the missing-URL branch
writes nothing. -/
theorem c3_status_after_attempt_witness :
    (∃ st, (update_subscription 0 100 true (some sample_url)
        (FetchOutcome.fetchErr "boom")).written = some st ∧
      st.url_preview = mask_url sample_url ∧
      ((update_subscription 0 100 true (some sample_url)
          (FetchOutcome.fetchErr "boom")).ret = false →
        st.success = false ∧ st.error ≠ none)) ∧
    (update_subscription 0 100 true none (FetchOutcome.fetchErr "boom")).written
      = none ∧
    (update_subscription 0 100 true none (FetchOutcome.fetchErr "boom")).ret
      = false ∧
    ∀ (s n p : String) (q q' : List (String × String)),
      q.map Prod.fst = q'.map Prod.fst →
      mask_url ⟨s, n, p, q⟩ = mask_url ⟨s, n, p, q'⟩ :=
  c3_status_after_attempt 0 100 sample_url (FetchOutcome.fetchErr "boom")
    (by decide)

/-- Claim C8: when a first `update()` call proceeds past the debounce
and lock gates with a configured URL (performing exactly one fetch and
stamping `_last_subscribe_update := now1`), any second call less than
`MIN_SUBSCRIBE_INTERVAL = 30` seconds after it returns true immediately
as a no-op: no fetch, no status write, timestamp unchanged — so the
network fetch is performed exactly once across the two calls. -/
theorem c8_debounce_single_fetch (last now1 now2 : Int) (u : Url)
    (f1 f2 : FetchOutcome) (lf2 : Bool) (u2 : Option Url)
    (h1 : ¬(now1 - last < MIN_SUBSCRIBE_INTERVAL))
    (h2 : now2 - now1 < MIN_SUBSCRIBE_INTERVAL) :
    (update_subscription last now1 true (some u) f1).fetches = 1 ∧
    update_subscription (update_subscription last now1 true (some u) f1).new_last
        now2 lf2 u2 f2 =
      { ret := true
        new_last := (update_subscription last now1 true (some u) f1).new_last
        fetches := 0
        written := none } := by
  have hl : (update_subscription last now1 true (some u) f1).new_last = now1 := by
    simp only [update_subscription, if_neg h1]
    cases f1 with
    | fetchErr m => simp
    | fetchOk hp hpt => by_cases hm : hp = false ∧ hpt = false <;> simp [hm]
  constructor
  · simp only [update_subscription, if_neg h1]
    cases f1 with
    | fetchErr m => simp
    | fetchOk hp hpt => by_cases hm : hp = false ∧ hpt = false <;> simp [hm]
  · rw [hl]
    simp only [update_subscription]
    rw [if_pos h2]

/-- Witness for C8: first call at t=100 fetches once; second call at
t=110 is a debounced no-op success. -/
theorem c8_debounce_single_fetch_witness :
    (update_subscription 0 100 true (some sample_url)
        (FetchOutcome.fetchOk true false)).fetches = 1 ∧
    update_subscription
        (update_subscription 0 100 true (some sample_url)
          (FetchOutcome.fetchOk true false)).new_last
        110 true (some sample_url) (FetchOutcome.fetchErr "x") =
      { ret := true
        new_last := (update_subscription 0 100 true (some sample_url)
          (FetchOutcome.fetchOk true false)).new_last
        fetches := 0
        written := none } :=
  c8_debounce_single_fetch 0 100 110 sample_url (FetchOutcome.fetchOk true false)
    (FetchOutcome.fetchErr "x") true (some sample_url) (by decide) (by decide)
